import Mathlib

/-!
Verification of the nREPL client layer (src/src/nrepl/index.ts): the
connection bootstrap, session multiplexing, capability gating and the
evaluation state machine.  JavaScript values are embedded shallowly:
optional string fields become `Option String`, JavaScript truthiness of a
string is non-emptiness, `status` fields (bencode lists) are
`Option (List String)` (a present array is truthy even when empty), and
the loose equality `status == 'done'` coerces the array to its
comma-joined string before comparing.
-/

namespace NRepl

/-- JavaScript truthiness of an optional string: present and non-empty. -/
def truthyS (s : Option String) : Bool :=
  match s with
  | none => false
  | some v => !v.isEmpty

/-- `hasStatus(res, status)`: `res.status && res.status.indexOf(status) > -1`
(array membership). -/
def hasStatus (st : Option (List String)) (s : String) : Bool :=
  match st with
  | none => false
  | some l => l.contains s

/-- JavaScript loose equality `msgData.status == s`: the status array is
present (any array is truthy) and its comma-joined string coercion equals
`s`.  Used by `_defaultMessageHandler` and the `need-input` check. -/
def statusLooseEq (st : Option (List String)) (s : String) : Bool :=
  match st with
  | none => false
  | some l => String.intercalate "," l == s

/-- JavaScript `a || b` on two optional strings: `a` when truthy, else `b`. -/
def jsOrOpt (a b : Option String) : Option String :=
  if truthyS a then a else b

/-- One cause entry of a cider-nrepl debug-middleware eval error
(`msg.causes[0]` with `class`, `message`, `stacktrace`). -/
structure Cause where
  cls : String
  message : String
  stacktrace : String
  deriving Repr, DecidableEq

/-- A decoded incoming nREPL message; only the fields the client reads. -/
structure Msg where
  id : Option String := none
  session : Option String := none
  op : Option String := none
  status : Option (List String) := none
  out : Option String := none
  err : Option String := none
  ns : Option String := none
  ex : Option String := none
  value : Option String := none
  debugValue : Option String := none
  pprintOut : Option String := none
  causes : Option (List Cause) := none
  replType : Option String := none
  newSession : Option String := none
  deriving Repr, DecidableEq

/-- An outgoing message written to the transport: the op, the correlation
id and session when present, and the remaining payload as key/value
pairs. -/
structure OutMsg where
  op : String
  id : Option String := none
  session : Option String := none
  fields : List (String × String) := []
  deriving Repr, DecidableEq

/-- Settlement of the promise a session operation returns at call time:
still pending (a handler was registered), resolved with `undefined`
(capability missing), or rejected with an error string. -/
inductive Outcome where
  | pending
  | resolvedU
  | rejectedMsg (reason : String)
  deriving Repr, DecidableEq

/-- The observable effect of invoking one session operation. -/
structure OpResult where
  writes : List OutMsg := []
  logs : List String := []
  registered : List String := []
  outcome : Outcome := .pending
  deriving Repr, DecidableEq

/-- The `describe` result stored on the client at bootstrap; `ops` lists
the op names the server advertises (keys of the `ops` table). -/
structure DescribeResult where
  ops : List String
  deriving Repr, DecidableEq

/-- `NReplSession.supports(op)`:
`this.client.describe && !!this.client.describe.ops[op]`.  Before the
bootstrap describe result is stored the conjunction short-circuits to a
falsy result. -/
def supports (describe : Option DescribeResult) (op : String) : Bool :=
  match describe with
  | none => false
  | some d => d.ops.contains op

/-- `addOnCloseHandler` on `NReplClient` and `NReplSession` (identical
code): push the handler only when `indexOf(fn) == -1`. -/
def addOnCloseHandler {α : Type} [DecidableEq α] (handlers : List α) (fn : α) : List α :=
  if fn ∈ handlers then handlers else handlers ++ [fn]

/-- `removeOnCloseHandler`: splice out the first occurrence when present. -/
def removeOnCloseHandler {α : Type} [DecidableEq α] (handlers : List α) (fn : α) : List α :=
  handlers.erase fn

/-! ### Session operations

Each operation is modelled as a function from the capability predicate
`sup` (the session's `supports`), the fresh correlation id drawn from
`client.nextId`, the session id and the operation's own arguments to the
messages written, the not-supported log entries, the handler ids
registered and the call-time promise outcome.  `describe` and
`out-subscribe` write unconditionally in the source; every other
operation is gated on `sup`. -/

/-- `NReplSession.describe`: registers a result handler and writes the
message without consulting `supports`. -/
def describeOp (sup : String → Bool) (id sessId : String) (verbose : Bool) : OpResult :=
  let _ := sup
  { writes := [{ op := "describe", id := some id, session := some sessId,
                 fields := [("verbose", toString verbose)] }],
    registered := [id], outcome := .pending }

/-- `NReplSession.outSubscribe`: like `describe`, written without a
capability check. -/
def outSubscribeOp (sup : String → Bool) (id sessId : String) (verbose : Bool) : OpResult :=
  let _ := sup
  { writes := [{ op := "out-subscribe", id := some id, session := some sessId,
                 fields := [("verbose", toString verbose)] }],
    registered := [id], outcome := .pending }

/-- Shared shape of a capability-gated request with a one-shot result
handler: send and register when supported, otherwise log the message as
not supported and resolve with `undefined`. -/
def gatedResultOp (sup : String → Bool) (msg : OutMsg) (id : String) : OpResult :=
  if sup msg.op then
    { writes := [msg], registered := [id], outcome := .pending }
  else
    { logs := [msg.op], outcome := .resolvedU }

/-- `NReplSession.listSessions`. -/
def listSessionsOp (sup : String → Bool) (id sessId : String) : OpResult :=
  gatedResultOp sup { op := "ls-sessions", id := some id, session := some sessId } id

/-- `NReplSession.stacktrace`. -/
def stacktraceOp (sup : String → Bool) (id sessId : String) : OpResult :=
  gatedResultOp sup { op := "stacktrace", id := some id, session := some sessId } id

/-- `NReplSession.complete`; `extra` stands for the optional
`enhanced-cljs-completion?` entry taken from the user config. -/
def completeOp (sup : String → Bool) (id sessId ns symbol : String)
    (context : Option String) (extra : List (String × String)) : OpResult :=
  gatedResultOp sup
    { op := "complete", id := some id, session := some sessId,
      fields := [("ns", ns), ("symbol", symbol), ("context", context.getD "")] ++ extra } id

/-- `NReplSession.info`; the symbol is sent with one leading quote
stripped (`symbol.replace` of a leading apostrophe). -/
def infoOp (sup : String → Bool) (id sessId ns symbol : String) : OpResult :=
  let sym := if symbol.startsWith "\x27" then symbol.drop 1 else symbol
  gatedResultOp sup
    { op := "info", id := some id, session := some sessId,
      fields := [("ns", ns), ("symbol", sym)] } id

/-- `NReplSession.classpath`. -/
def classpathOp (sup : String → Bool) (id sessId : String) : OpResult :=
  gatedResultOp sup { op := "classpath", id := some id, session := some sessId } id

/-- `NReplSession.testVarQuery`; the var-query payload is carried opaquely. -/
def testVarQueryOp (sup : String → Bool) (id sessId query : String) : OpResult :=
  gatedResultOp sup
    { op := "test-var-query", id := some id, session := some sessId,
      fields := [("var-query", query)] } id

/-- `NReplSession.testStacktrace` (registers a plain resolving handler). -/
def testStacktraceOp (sup : String → Bool) (id sessId ns test : String) (index : Nat) : OpResult :=
  gatedResultOp sup
    { op := "test-stacktrace", id := some id, session := some sessId,
      fields := [("ns", ns), ("var", test), ("index", toString index)] } id

/-- `NReplSession.retest`. -/
def retestOp (sup : String → Bool) (id sessId : String) : OpResult :=
  gatedResultOp sup { op := "retest", id := some id, session := some sessId } id

/-- `NReplSession.loadAll` (`ns-load-all`). -/
def loadAllOp (sup : String → Bool) (id sessId : String) : OpResult :=
  gatedResultOp sup { op := "ns-load-all", id := some id, session := some sessId } id

/-- `NReplSession.listNamespaces` (`ns-list`). -/
def listNamespacesOp (sup : String → Bool) (id sessId : String) (regexps : List String) : OpResult :=
  gatedResultOp sup
    { op := "ns-list", id := some id, session := some sessId,
      fields := [("filter-regexps", String.intercalate "," regexps)] } id

/-- `NReplSession.nsPath`. -/
def nsPathOp (sup : String → Bool) (id sessId ns : String) : OpResult :=
  gatedResultOp sup
    { op := "ns-path", id := some id, session := some sessId, fields := [("ns", ns)] } id

/-- `NReplSession._refresh`, shared by `refresh` and `refresh-all`; the
multi-message accumulation done by its handler is not needed here, only
the gating and what is sent. -/
def refreshGenOp (sup : String → Bool) (cmd id sessId : String) : OpResult :=
  let msg : OutMsg := { op := cmd, id := some id, session := some sessId }
  if sup cmd then
    { writes := [msg], registered := [id], outcome := .pending }
  else
    { logs := [cmd], outcome := .resolvedU }

/-- `NReplSession.refresh`. -/
def refreshOp (sup : String → Bool) (id sessId : String) : OpResult :=
  refreshGenOp sup "refresh" id sessId

/-- `NReplSession.refreshAll`. -/
def refreshAllOp (sup : String → Bool) (id sessId : String) : OpResult :=
  refreshGenOp sup "refresh-all" id sessId

/-- `NReplSession.formatCode`. -/
def formatCodeOp (sup : String → Bool) (id sessId code : String)
    (options : Option String) : OpResult :=
  gatedResultOp sup
    { op := "format-code", id := some id, session := some sessId,
      fields := [("code", code), ("options", options.getD "")] } id

/-- `NReplSession.interrupt`: the only gated operation that rejects when
the capability is missing. -/
def interruptOp (sup : String → Bool) (id sessId interruptId : String) : OpResult :=
  let msg : OutMsg := { op := "interrupt", id := some id, session := some sessId,
                        fields := [("interrupt-id", interruptId)] }
  if sup msg.op then
    { writes := [msg], registered := [id], outcome := .pending }
  else
    { logs := [msg.op], outcome := .rejectedMsg "interrupt not supported by the nREPL server" }

/-- `NReplSession.stdin`: a void send; it never registers a handler and
returns `undefined` either way. -/
def stdinOp (sup : String → Bool) (sessId message : String) : OpResult :=
  let msg : OutMsg := { op := "stdin", session := some sessId, fields := [("stdin", message)] }
  if sup msg.op then
    { writes := [msg], outcome := .resolvedU }
  else
    { logs := [msg.op], outcome := .resolvedU }

/-- `NReplSession.clone`: registers a handler that wraps the returned
`new-session` id when supported, else resolves `undefined`. -/
def cloneOp (sup : String → Bool) (id sessId : String) : OpResult :=
  let msg : OutMsg := { op := "clone", id := some id, session := some sessId }
  if sup msg.op then
    { writes := [msg], registered := [id], outcome := .pending }
  else
    { logs := [msg.op], outcome := .resolvedU }

/-- `NReplSession._createEvalOperationMessage`: when a pending
debug-response key exists, a debug session is active and the REPL flavor
is `clj`, the code is redirected as `debug-input` keyed by the stored
debug-response id; otherwise a plain `eval` with a fresh id. -/
def createEvalOperationMessage (debugResponse : Option (String × String)) (activeDebug : Bool)
    (replType : Option String) (freshId sessId code : String) : OutMsg :=
  match debugResponse with
  | some (did, dkey) =>
    if activeDebug && (replType == some "clj") then
      { op := "debug-input", id := some did, session := some sessId,
        fields := [("input", "\x7b:response :eval, :code " ++ code ++ "\x7d"), ("key", dkey)] }
    else
      { op := "eval", id := some freshId, session := some sessId, fields := [("code", code)] }
  | none =>
    { op := "eval", id := some freshId, session := some sessId, fields := [("code", code)] }

/-- `NReplSession.eval`, restricted to its transport effects: build the
operation message, and either register the evaluation's handler, record
the running id and send, or log and resolve `undefined`. -/
def evalOp (sup : String → Bool) (debugResponse : Option (String × String)) (activeDebug : Bool)
    (replType : Option String) (freshId sessId code : String) : OpResult :=
  let opMsg := createEvalOperationMessage debugResponse activeDebug replType freshId sessId code
  if sup opMsg.op then
    { writes := [opMsg], registered := opMsg.id.toList, outcome := .pending }
  else
    { logs := [opMsg.op], outcome := .resolvedU }

/-- `NReplSession.loadFile`, restricted to its transport effects. -/
def loadFileOp (sup : String → Bool) (id sessId file fileName filePath : String) : OpResult :=
  let msg : OutMsg := { op := "load-file", id := some id, session := some sessId,
                        fields := [("file", file), ("file-name", fileName),
                                   ("file-path", filePath)] }
  if sup msg.op then
    { writes := [msg], registered := [id], outcome := .pending }
  else
    { logs := [msg.op], outcome := .resolvedU }

/-- `NReplSession.initDebugger`: fire-and-forget, no handler, void. -/
def initDebuggerOp (sup : String → Bool) (id sessId : String) : OpResult :=
  let msg : OutMsg := { op := "init-debugger", id := some id, session := some sessId }
  if sup msg.op then
    { writes := [msg], outcome := .resolvedU }
  else
    { logs := [msg.op], outcome := .resolvedU }

/-- `NReplSession.sendDebugInput` (`debug-input` keyed by the stored
debug-response id). -/
def sendDebugInputOp (sup : String → Bool) (sessId input debugResponseId debugResponseKey : String) :
    OpResult :=
  gatedResultOp sup
    { op := "debug-input", id := some debugResponseId, session := some sessId,
      fields := [("input", input), ("key", debugResponseKey)] } debugResponseId

/-- `NReplSession.listDebugInstrumentedDefs`. -/
def listDebugInstrumentedDefsOp (sup : String → Bool) (id sessId : String) : OpResult :=
  gatedResultOp sup
    { op := "debug-instrumented-defs", id := some id, session := some sessId } id

/-- `NReplSession.clojureDocsRefreshCache` (plain resolving handler). -/
def clojureDocsRefreshCacheOp (sup : String → Bool) (id sessId : String) : OpResult :=
  gatedResultOp sup
    { op := "clojuredocs-refresh-cache", id := some id, session := some sessId } id

/-- `NReplSession.clojureDocsLookup`; the unsupported branch resolves
`undefined` without even logging. -/
def clojureDocsLookupOp (sup : String → Bool) (id sessId ns symbol : String) : OpResult :=
  let msg : OutMsg := { op := "clojuredocs-lookup", id := some id, session := some sessId,
                        fields := [("ns", ns), ("sym", symbol)] }
  if sup msg.op then
    { writes := [msg], registered := [id], outcome := .pending }
  else
    { outcome := .resolvedU }

/-! ### Session state and dispatch -/

/-- What a registered one-shot handler does when its id recurs: the
evaluation under study owns `evalH`; every `resultHandler`-style handler
is `resultH`. -/
inductive HKind where
  | evalH
  | resultH
  deriving Repr, DecidableEq

/-- Observable events: the evaluation promise settling, transport writes,
not-supported log entries, the user callbacks, the output window
collaborator, other operations' promises settling, and errors thrown
inside promise callbacks. -/
inductive Ev where
  | resolveEv (v : Option String)
  | rejectEv (v : Option String)
  | sendEv (m : OutMsg)
  | logNotSupported (op : String)
  | stdoutCb (s : String)
  | stderrCb (s : String)
  | appendOutWin (s : String)
  | appendErrWin (s : String)
  | opResolved (id : String)
  | opRejected (id : String) (reason : String)
  | thrown (s : String)
  deriving Repr, DecidableEq

/-- Mutable state of one `NReplSession` (plus the client's id counter,
which all sessions of the connection share). -/
structure SessState where
  messageHandlers : List (String × HKind) := []
  runningIds : List String := []
  replType : Option String := none
  nextId : Nat := 0
  deriving Repr, DecidableEq

/-- JavaScript object-key assignment `messageHandlers[id] = h`. -/
def setHandler (hs : List (String × HKind)) (id : String) (k : HKind) : List (String × HKind) :=
  hs.filter (fun p => p.1 ≠ id) ++ [(id, k)]

/-- JavaScript `delete messageHandlers[id]`. -/
def deleteHandler (hs : List (String × HKind)) (id : String) : List (String × HKind) :=
  hs.filter (fun p => p.1 ≠ id)

/-- `messageHandlers[id]` lookup. -/
def lookupHandler (hs : List (String × HKind)) (id : String) : Option HKind :=
  (hs.find? (fun p => p.1 = id)).map (·.2)

/-- `NReplSession.addRunningID`: push only a truthy id not already in the
list. -/
def addRunningID (ids : List String) (id : Option String) : List String :=
  match id with
  | none => ids
  | some i =>
    if i.isEmpty then ids
    else if i ∈ ids then ids else ids ++ [i]

/-- `NReplSession._defaultMessageHandler`: update the tracked REPL flavor
when the message carries one; record the id as running unless the status
field is present and loosely equals the string `done` (a JavaScript `==`
between the status array and a string); forward `out`/`err` to the output
window only when a flavor is known. -/
def defaultMessageHandler (s : SessState) (m : Msg) : SessState × List Ev :=
  let s := if truthyS m.replType then { s with replType := m.replType } else s
  let s :=
    if !(m.status.isSome && statusLooseEq m.status "done") then
      { s with runningIds := addRunningID s.runningIds m.id }
    else s
  let evs :=
    if (truthyS m.out || truthyS m.err) && truthyS s.replType then
      if truthyS m.out then [Ev.appendOutWin (m.out.getD "")]
      else [Ev.appendErrWin (m.err.getD "")]
    else []
  (s, evs)

/-! ### The evaluation state machine -/

/-- `_stacktrace` of an evaluation: the empty object set by `interrupt`,
the object built from a debug eval-error cause, or the response of a
`stacktrace` fetch.  All are truthy. -/
inductive StackVal where
  | emptyObj
  | fromCause (st : String)
  | fetched
  deriving Repr, DecidableEq

/-- Mutable state of one `NReplEvaluation`.  `handlersSet` records that
`setHandlers` has supplied `_resolve`/`__reject`; `inInstances` is
membership in the live-instance registry; the two counters count the
calls actually forwarded to `_resolve`/`_reject`. -/
structure EvalState where
  id : String
  hasStdout : Bool := false
  hasStderr : Bool := false
  hasStdin : Bool := false
  ns : Option String := none
  msgValue : Option String := none
  pprintOut : Option String := none
  outPut : Option String := none
  errorOutput : Option String := none
  exception : Option String := none
  stacktrace : Option StackVal := none
  msgs : List Msg := []
  interrupted : Bool := false
  finished : Bool := false
  running : Bool := false
  handlersSet : Bool := false
  inInstances : Bool := false
  resolveCount : Nat := 0
  rejectCount : Nat := 0
  deriving Repr, DecidableEq

/-- The `msgValue` getter: the stored value when truthy, else the empty
string. -/
def EvalState.msgValueStr (e : EvalState) : String :=
  match e.msgValue with
  | some v => if v.isEmpty then "" else v
  | none => ""

/-- Modelled from the spec: the debug-quit sentinel (the accumulated
value marking a terminated debug session), `DEBUG_QUIT_VALUE` of the
debugger collaborator, whose source is not part of this repository. -/
def DEBUG_QUIT_VALUE : String := "debug session terminated"

/-- `NReplEvaluation.doResolve`: forward to `_resolve` only when the
handlers are set and the evaluation is not yet finished; always clear
`running` and latch `finished`. -/
def doResolve (e : EvalState) (v : Option String) : EvalState × List Ev :=
  if e.handlersSet && !e.finished then
    ({ e with running := false, finished := true, resolveCount := e.resolveCount + 1 },
     [Ev.resolveEv v])
  else
    ({ e with running := false, finished := true }, [])

/-- `NReplEvaluation.doReject`, same guard as `doResolve`. -/
def doReject (e : EvalState) (v : Option String) : EvalState × List Ev :=
  if e.handlersSet && !e.finished then
    ({ e with running := false, finished := true, rejectCount := e.rejectCount + 1 },
     [Ev.rejectEv v])
  else
    ({ e with running := false, finished := true }, [])

/-- `NReplEvaluation.out`: append (or initialize) the accumulated output
and forward to the stdout callback unless interrupted. -/
def evalOut (e : EvalState) (m : String) : EvalState × List Ev :=
  let e' :=
    if truthyS e.outPut then { e with outPut := some (e.outPut.getD "" ++ m) }
    else { e with outPut := some m }
  (e', if e.hasStdout && !e.interrupted then [Ev.stdoutCb m] else [])

/-- `NReplEvaluation.err`: like `out` for the error stream. -/
def evalErr (e : EvalState) (m : String) : EvalState × List Ev :=
  let e' :=
    if truthyS e.errorOutput then { e with errorOutput := some (e.errorOutput.getD "" ++ m) }
    else { e with errorOutput := some m }
  (e', if e.hasStderr && !e.interrupted then [Ev.stderrCb m] else [])

/-- Connection-level configuration an evaluation sees: the capability
predicate, the session id, and the pretty-printing options passed to
`onMessage`. -/
structure Cfg where
  sup : String → Bool
  sessionId : String := ""
  pprintEnabled : Bool := false
  printEngineCalva : Bool := false

/-- Outcomes of the asynchronous collaborators consulted while one
message is processed: the programmatic stdin provider, the interactive
prompt (`ok none` is a dismissed prompt, i.e. `undefined`), the
`stacktrace` fetch, and the calva pretty-printer. -/
structure Oracle where
  stdinRes : Except String String := .ok ""
  promptRes : Except Unit (Option String) := .ok none
  stacktraceOk : Bool := true
  prettyRes : Except String String := .ok ""

/-- Register an operation's one-shot handlers into the session state. -/
def applyOp (ss : SessState) (k : HKind) (r : OpResult) : SessState :=
  { ss with messageHandlers := r.registered.foldl (fun hs i => setHandler hs i k) ss.messageHandlers }

/-- The wire/log events of an operation invocation. -/
def opEvents (r : OpResult) : List Ev :=
  r.writes.map Ev.sendEv ++ r.logs.map Ev.logNotSupported

/-- The session plus the single evaluation under study. -/
structure World where
  sess : SessState
  eval : EvalState
  deriving Repr, DecidableEq

/-- `NReplSession.interrupt` applied to the session state: splice the
interrupted id out of the running ids, draw a fresh id, then either send
`interrupt` with a result handler or reject as unsupported. -/
def sessionInterruptW (cfg : Cfg) (ss : SessState) (interruptId : String) :
    SessState × (List Ev × Outcome) :=
  let ss := { ss with runningIds := ss.runningIds.erase interruptId }
  let idN := ss.nextId + 1
  let r := interruptOp cfg.sup (Nat.repr idN) cfg.sessionId interruptId
  (applyOp { ss with nextId := idN } .resultH r, (opEvents r, r.outcome))

/-- `NReplSession.stdin` as seen from an evaluation. -/
def sessionStdinW (cfg : Cfg) (message : String) : List Ev :=
  opEvents (stdinOp cfg.sup cfg.sessionId message)

/-- `NReplEvaluation.interrupt`: only effective while running and not yet
interrupted.  Removes the evaluation from the live-instance set, marks it
interrupted, installs the fixed interrupt exception with an empty trace,
asks the session for a server-side interrupt (an unsupported interrupt
rejects, and the catch callback rethrows), rejects with the interrupt
exception, and finally deletes the evaluation's own pending handler. -/
def evalInterrupt (cfg : Cfg) (w : World) : World × List Ev :=
  if !w.eval.interrupted && w.eval.running then
    let e :=
      { w.eval with
        inInstances := false
        interrupted := true
        exception := some "Evaluation was interrupted"
        stacktrace := some StackVal.emptyObj }
    let ri := sessionInterruptW cfg w.sess e.id
    let evs2 :=
      match ri.2.2 with
      | .rejectedMsg r => [Ev.thrown ("Couldn\x27t interrupt evaluation: " ++ r)]
      | _ => []
    let rr := doReject e e.exception
    let ss := { ri.1 with messageHandlers := deleteHandler ri.1.messageHandlers e.id }
    (⟨ss, rr.1⟩, ri.2.1 ++ evs2 ++ rr.2)
  else (w, [])

/-- `if (msg.out) this.out(msg.out)`. -/
def fieldOut (e : EvalState) (m : Msg) : EvalState × List Ev :=
  if truthyS m.out then evalOut e (m.out.getD "") else (e, [])

/-- `if (msg.err && this.msgValue !== DEBUG_QUIT_VALUE) this.err(msg.err)`. -/
def fieldErr (e : EvalState) (m : Msg) : EvalState × List Ev :=
  if truthyS m.err && e.msgValueStr != DEBUG_QUIT_VALUE then evalErr e (m.err.getD "")
  else (e, [])

/-- `if (msg.ns) this._ns = msg.ns`. -/
def fieldNs (e : EvalState) (m : Msg) : EvalState :=
  if truthyS m.ns then { e with ns := m.ns } else e

/-- `if (msg.ex) this._exception = msg.ex`. -/
def fieldEx (e : EvalState) (m : Msg) : EvalState :=
  if truthyS m.ex then { e with exception := m.ex } else e

/-- The cider-nrepl debug-middleware eval-error branch: format the first
cause, store its trace and append to the error output.  A present but
empty causes array is truthy in JavaScript, so the source then reads
`msg.causes[0].class` of `undefined` and throws a TypeError before the
`_stacktrace` assignment; the second component is that throw signal, and
the state returned with it is the state at the throw point. -/
def fieldCauses (e : EvalState) (m : Msg) : (EvalState × List Ev) × Bool :=
  if hasStatus m.status "eval-error" && m.causes.isSome then
    match m.causes.getD [] with
    | c :: _ =>
      (evalErr { e with stacktrace := some (StackVal.fromCause c.stacktrace) }
        (c.cls ++ ": " ++ c.message), false)
    | [] => ((e, []), true)
  else ((e, []), false)

/-- The inputs on which `onMessage` throws: an `eval-error` status with a
present-but-empty causes array (`msg.causes[0]` is `undefined`). -/
def throwsOnCauses (m : Msg) : Bool :=
  hasStatus m.status "eval-error" && m.causes.isSome
    && (match m.causes.getD [] with | [] => true | _ :: _ => false)

/-- `if (msg.value !== undefined || msg[debug-value] !== undefined)
this._msgValue = msg.value || msg[debug-value]`. -/
def fieldValue (e : EvalState) (m : Msg) : EvalState :=
  if m.value.isSome || m.debugValue.isSome then { e with msgValue := jsOrOpt m.value m.debugValue }
  else e

/-- `if (msg[pprint-out]) this._pprintOut = msg[pprint-out]`. -/
def fieldPprint (e : EvalState) (m : Msg) : EvalState :=
  if truthyS m.pprintOut then { e with pprintOut := m.pprintOut } else e

/-- The per-field accumulation of `onMessage` (out, err, ns, ex, debug
eval-error causes, value / debug-value, pprint-out), in source order.
The Bool is the propagating TypeError of the causes branch: when it is
set, the value and pprint-out assignments never run and the state is the
one at the throw point. -/
def procFields (e : EvalState) (m : Msg) : (EvalState × List Ev) × Bool :=
  let r1 := fieldOut e m
  let r2 := fieldErr r1.1 m
  let e3 := fieldNs r2.1 m
  let e4 := fieldEx e3 m
  let r5 := fieldCauses e4 m
  if r5.2 then ((e4, r1.2 ++ r2.2), true)
  else
    let e6 := fieldValue r5.1.1 m
    let e7 := fieldPprint e6 m
    ((e7, r1.2 ++ r2.2 ++ r5.1.2), false)

/-- The `need-input` suspension point: ask the programmatic stdin provider
when one was supplied (trim and send, or report the failure and send a
blank line), otherwise prompt interactively (send the input, or on a
dismissed prompt emit an informational out message and self-interrupt, or
on prompt failure send a blank line). -/
def procNeedInput (cfg : Cfg) (o : Oracle) (w : World) : World × List Ev :=
  if w.eval.hasStdin then
    match o.stdinRes with
    | .ok line => (w, sessionStdinW cfg (line.trim ++ "\n"))
    | .error reason =>
      let r := evalErr w.eval ("Failed to retrieve input: " ++ reason)
      ({ w with eval := r.1 }, r.2 ++ sessionStdinW cfg "\n")
  else
    match o.promptRes with
    | .ok (some input) => (w, sessionStdinW cfg (input ++ "\n"))
    | .ok none =>
      let r1 := evalOut w.eval "Sending interrupt."
      let r2 := evalInterrupt cfg { w with eval := r1.1 }
      (r2.1, r1.2 ++ r2.2)
    | .error _ => (w, sessionStdinW cfg "\n")

/-- Terminal handling of `onMessage` (status contains `done` or
`need-debug-input`): drop out of the live-instance set, then settle the
promise: reject with the exception (after a best-effort `stacktrace`
fetch whose own failure is swallowed), or resolve with the pretty-printed
output, or reject with the empty string when only a stacktrace is set, or
resolve with the value, optionally re-rendered by the calva printer whose
errors go to `err` without replacing the raw value. -/
def procTerminal (cfg : Cfg) (o : Oracle) (w : World) : World × List Ev :=
  let e := { w.eval with inInstances := false }
  if truthyS e.exception && e.msgValueStr != DEBUG_QUIT_VALUE then
    if cfg.sup "stacktrace" then
      let stId := Nat.repr (w.sess.nextId + 1)
      let r := stacktraceOp cfg.sup stId cfg.sessionId
      let ss := applyOp { w.sess with nextId := w.sess.nextId + 1 } .resultH r
      -- the fetch settles asynchronously; the oracle delivers its outcome
      -- here, consuming the one-shot handler, and both outcomes reject
      -- with the already-known exception
      let ss := { ss with messageHandlers := deleteHandler ss.messageHandlers stId }
      let e := if o.stacktraceOk then { e with stacktrace := some StackVal.fetched } else e
      let rr := doReject e e.exception
      (⟨ss, rr.1⟩, opEvents r ++ rr.2)
    else
      let rr := doReject e e.exception
      ({ w with eval := rr.1 }, rr.2)
  else if truthyS e.pprintOut then
    let rr := doResolve e e.pprintOut
    ({ w with eval := rr.1 }, rr.2)
  else if e.stacktrace.isSome then
    let rr := doReject e (some "")
    ({ w with eval := rr.1 }, rr.2)
  else
    let printValue := e.msgValueStr
    if cfg.pprintEnabled && cfg.printEngineCalva then
      match o.prettyRes with
      | .ok v =>
        let rr := doResolve e (some v)
        ({ w with eval := rr.1 }, rr.2)
      | .error perr =>
        let r1 := evalErr e perr
        let rr := doResolve r1.1 (some printValue)
        ({ w with eval := rr.1 }, r1.2 ++ rr.2)
    else
      let rr := doResolve e (some printValue)
      ({ w with eval := rr.1 }, rr.2)

/-- Terminal detection: status contains `done` or `need-debug-input`. -/
def isTerminalMsg (m : Msg) : Bool :=
  hasStatus m.status "done" || hasStatus m.status "need-debug-input"

/-- The entry bookkeeping of `onMessage`: mark running, register in the
live-instance set, push the message. -/
def startEval (e : EvalState) (m : Msg) : EvalState :=
  { e with running := true, inInstances := true, msgs := e.msgs ++ [m] }

/-- `NReplEvaluation.onMessage`: mark running, register in the live
instances, push the message, process its fields, serve `need-input`, and
on a terminal status settle the promise.  The first Bool is whether the
message was consumed (the registered handler is then removed); the
second is the propagating TypeError of the causes branch — when it is
set, the `need-input` and terminal handling never run, nothing is
settled, and the handler stays registered. -/
def onMessage (cfg : Cfg) (o : Oracle) (w : World) (m : Msg) : (World × List Ev) × Bool × Bool :=
  let rf := procFields (startEval w.eval m) m
  if rf.2 then ((⟨w.sess, rf.1.1⟩, rf.1.2), false, true)
  else
    let w1 : World := ⟨w.sess, rf.1.1⟩
    let rn :=
      if m.status.isSome && statusLooseEq m.status "need-input" then procNeedInput cfg o w1
      else (w1, ([] : List Ev))
    if isTerminalMsg m then
      let rt := procTerminal cfg o rn.1
      ((rt.1, rf.1.2 ++ rn.2 ++ rt.2), true, false)
    else ((rn.1, rf.1.2 ++ rn.2), false, false)

/-- The handler `NReplSession.eval`/`loadFile` register for the
evaluation's id: supply the promise executors via `setHandlers`, then
run `onMessage`. -/
def handleEvalMsg (cfg : Cfg) (o : Oracle) (w : World) (m : Msg) : (World × List Ev) × Bool × Bool :=
  onMessage cfg o ⟨w.sess, { w.eval with handlersSet := true }⟩ m

/-- `NReplSession._response`: look up the handler by message id; run it
and delete it when it signals consumption; fall back to the default
handler when no handler (or no id) is present. -/
def response (cfg : Cfg) (o : Oracle) (w : World) (m : Msg) : World × List Ev :=
  match m.id with
  | none =>
    let r := defaultMessageHandler w.sess m
    (⟨r.1, w.eval⟩, r.2)
  | some i =>
    match lookupHandler w.sess.messageHandlers i with
    | some HKind.evalH =>
      let r := handleEvalMsg cfg o w m
      -- a thrown TypeError aborts `_response` before the delete, so a
      -- throwing handler (consumed = false) is never removed
      if r.2.1 then
        (⟨{ r.1.1.sess with messageHandlers := deleteHandler r.1.1.sess.messageHandlers i },
          r.1.1.eval⟩, r.1.2)
      else r.1
    | some HKind.resultH =>
      let evs :=
        if hasStatus m.status "unknown-op" then
          [Ev.opRejected i ("The server does not recognize or cannot perform the \x27" ++
            m.op.getD "undefined" ++ "\x27 operation")]
        else [Ev.opResolved i]
      (⟨{ w.sess with messageHandlers := deleteHandler w.sess.messageHandlers i }, w.eval⟩, evs)
    | none =>
      let r := defaultMessageHandler w.sess m
      (⟨r.1, w.eval⟩, r.2)

/-- A sequence of messages delivered to one evaluation's handler,
assuming none of them throws. -/
def runEvalMsgsCore (cfg : Cfg) (w : World) (ms : List (Msg × Oracle)) : World :=
  ms.foldl (fun w p => ((handleEvalMsg cfg p.2 w p.1).1).1) w

/-- A sequence of messages delivered to one evaluation's handler.  Once a
handler throws, the TypeError escapes the decoder data callback; no
further processing of the sequence is modelled, and the flag records
that the run aborted. -/
def runEvalMsgs (cfg : Cfg) (w : World) (ms : List (Msg × Oracle)) : World × Bool :=
  ms.foldl
    (fun acc p =>
      if acc.2 then acc
      else
        let r := handleEvalMsg cfg p.2 acc.1 p.1
        (r.1.1, r.2.2))
    (w, false)

/-! ### The client id generator

`get nextId() { return ++this._nextId + ''; }` increments the private
counter and returns its decimal string. -/

/-- One call of the `nextId` getter: the new counter and the returned
identifier. -/
def nextIdCall (n : Nat) : Nat × String := (n + 1, Nat.repr (n + 1))

/-- `k` successive `nextId` calls starting from counter `n`: the final
counter and the identifiers handed out, in order. -/
def runNextIds : Nat → Nat → Nat × List String
  | n, 0 => (n, [])
  | n, k + 1 =>
    let r := runNextIds n k
    let c := nextIdCall r.1
    (c.1, r.2 ++ [c.2])

/-- Numeric value of a decimal digit character. -/
def decDigit (c : Char) : Nat := c.toNat - 48

/-- Decimal value of a digit string, most significant first. -/
def decValue (l : List Char) : Nat := l.foldl (fun a c => a * 10 + decDigit c) 0

/-! ### The connection bootstrap

`NReplClient.create` draws three ids (the `*ns*` eval, the clone, the
describe), then reacts to every decoded message; the creation promise
resolves whenever both the first session exists and the describe result
is stored, a condition re-checked after every message. -/

def nsId : String := Nat.repr 1

def cloneId : String := Nat.repr 2

def describeId : String := Nat.repr 3

/-- Bootstrap state of `NReplClient.create`: the stored describe result,
the tracked namespace, whether the first session object was constructed
(and the server-assigned id it carries), whether the creation promise has
resolved, and the messages written so far. -/
structure BootState where
  describe : Option Msg := none
  ns : String := "user"
  sessionCreated : Bool := false
  sessionId : Option String := none
  resolved : Bool := false
  writes : List OutMsg := []
  deriving Repr, DecidableEq

/-- The dispatch chain of the decoder data handler: store the describe
response (only while none is stored), react to the `*ns*` eval (capture
the namespace, send `clone` on its terminal message), construct the first
session from the clone response and send the scoped verbose `describe`.
Messages carrying a `session` field are routed to the owning session and
do not alter bootstrap state. -/
def createStepCore (s : BootState) (d : Msg) : BootState :=
  if !s.describe.isSome && d.id == some describeId then
    { s with describe := some d }
  else if d.id == some nsId then
    let s1 := if truthyS d.ns then { s with ns := d.ns.getD "" } else s
    if hasStatus d.status "done" then
      { s1 with writes := s1.writes ++ [{ op := "clone", id := some cloneId }] }
    else s1
  else if d.id == some cloneId then
    { s with
      sessionCreated := true
      sessionId := d.newSession
      writes := s.writes ++ [{ op := "describe", id := some describeId,
                               session := d.newSession, fields := [("verbose", "true")] }] }
  else s

/-- One decoded message during bootstrap: the dispatch chain, followed by
the resolution check `if (client.session && client.describe) resolve`. -/
def createStep (s : BootState) (d : Msg) : BootState :=
  let s1 := createStepCore s d
  if s1.sessionCreated && s1.describe.isSome then { s1 with resolved := true } else s1

/-- State right after the connection opens and the `*ns*` eval request is
written. -/
def initBoot : BootState :=
  { writes := [{ op := "eval", id := some nsId, fields := [("code", "*ns*")] }] }

/-- The whole bootstrap over a sequence of decoded messages. -/
def runCreate (msgs : List Msg) : BootState :=
  msgs.foldl createStep initBoot

/-! ### Auxiliary definitions used by the statements -/

/-- An empty capability set (nothing advertised / before bootstrap). -/
def noCaps : String → Bool := fun _ => false

/-- A capability set advertising everything. -/
def allCaps : String → Bool := fun _ => true

/-- A terminal message with an extra status tag, delivered without a
registered handler. -/
def c6Msg : Msg := { id := some "7", status := some ["eval-error", "done"] }

/-- A session that already learned its REPL flavor. -/
def c6Sess : SessState := { replType := some "clj" }

/-- A configuration advertising every capability. -/
def cfgAll : Cfg := { sup := allCaps, sessionId := "s1" }

/-- The default collaborator outcomes. -/
def oracle0 : Oracle := {}

/-- A fresh evaluation for correlation id 7. -/
def eval7 : EvalState := { id := "7" }

/-- A session with the evaluation's handler registered. -/
def sess7 : SessState := { messageHandlers := [("7", HKind.evalH)], runningIds := ["7"] }

/-- The world holding `sess7` and `eval7`. -/
def world7 : World := ⟨sess7, eval7⟩

/-- A message carrying both a truthy `value` and a truthy `debug-value`. -/
def c4Msg : Msg := { id := some "7", value := some "1", debugValue := some "2" }

/-- A running evaluation whose promise executors are installed. -/
def c5Eval : EvalState := { id := "7", handlersSet := true, running := true }

/-- The world for the exception/stacktrace and interrupt scenarios. -/
def c5World : World := ⟨sess7, c5Eval⟩

/-- A terminal eval-error message carrying an exception. -/
def c5Msg : Msg := { id := some "7", ex := some "Exception", status := some ["eval-error", "done"] }

/-- A plain late terminal message. -/
def c3Msg : Msg := { id := some "7", status := some ["done"] }

/-- A terminal eval-error message with a present but empty causes array:
the source throws on `msg.causes[0].class` before the terminal branch. -/
def c1CrashMsg : Msg :=
  { id := some "7", status := some ["eval-error", "done"], causes := some [] }

/-- A value-carrying message hitting the same throwing branch before the
value assignment. -/
def c4CrashMsg : Msg :=
  { id := some "7", value := some "1", debugValue := some "2",
    status := some ["eval-error"], causes := some [] }

/-- An exception-carrying terminal message hitting the throwing branch
before the terminal branch. -/
def c5CrashMsg : Msg :=
  { id := some "7", ex := some "Exception", status := some ["eval-error", "done"],
    causes := some [] }

/-- The fields of an evaluation that govern promise settlement are
unchanged between two states (used to carry the exactly-once invariant
through the stages of `onMessage` that never settle the promise). -/
def sameCore (a b : EvalState) : Prop :=
  b.handlersSet = a.handlersSet ∧ b.finished = a.finished
  ∧ b.resolveCount = a.resolveCount ∧ b.rejectCount = a.rejectCount

/-- The contract of an unsupported gated operation: nothing written to
the transport and a call resolving with `undefined`. -/
def gatedOk (r : OpResult) : Prop :=
  r.writes = [] ∧ r.outcome = Outcome.resolvedU

instance (r : OpResult) : Decidable (gatedOk r) := by
  unfold gatedOk; infer_instance

/-- The contract of an unsupported `interrupt`: nothing written and a
rejection with the explicit not-supported error. -/
def gatedRejects (r : OpResult) : Prop :=
  r.writes = [] ∧ r.outcome = Outcome.rejectedMsg "interrupt not supported by the nREPL server"

instance (r : OpResult) : Decidable (gatedRejects r) := by
  unfold gatedRejects; infer_instance

/-- Exactly-once bookkeeping of an evaluation: `finished` holds exactly
when one call went through to `_resolve`/`__reject`, and never more than
one such call happened. -/
def onceInv (e : EvalState) : Prop :=
  (e.finished = true ↔ e.resolveCount + e.rejectCount = 1) ∧ e.resolveCount + e.rejectCount ≤ 1

instance (e : EvalState) : Decidable (onceInv e) := by
  unfold onceInv; infer_instance

/-! ## Theorems -/

/-- C10: `addOnCloseHandler` (identical on `NReplClient` and
`NReplSession`) is idempotent — registering the same handler again leaves
the list unchanged — and a handler registered while absent occurs exactly
once in the list, hence is invoked exactly once per close event (the
close path runs each list entry once). -/
theorem c10_close_handler_idempotent {α : Type} [DecidableEq α] (handlers : List α) (fn : α) :
    addOnCloseHandler (addOnCloseHandler handlers fn) fn = addOnCloseHandler handlers fn
  ∧ (fn ∉ handlers → List.count fn (addOnCloseHandler handlers fn) = 1) := by
  unfold addOnCloseHandler
  by_cases h : fn ∈ handlers
  · simp [h]
  · simp [h, List.count_eq_zero.mpr h]

/-- Witness for C10 at a concrete input. -/
theorem c10_close_handler_idempotent_witness :
    addOnCloseHandler (addOnCloseHandler ([] : List Nat) 0) 0 = addOnCloseHandler [] 0
  ∧ List.count 0 (addOnCloseHandler ([] : List Nat) 0) = 1 :=
  ⟨(c10_close_handler_idempotent [] 0).1, (c10_close_handler_idempotent [] 0).2 (by decide)⟩

/-! Decimal round-trip for `Nat.repr`, used to show the id generator
never reuses an identifier. -/

theorem decDigit_digitChar (d : Nat) (h : d < 10) : decDigit (Nat.digitChar d) = d := by
  interval_cases d <;> decide

theorem decValue_foldl (l : List Char) (a : Nat) :
    l.foldl (fun acc c => acc * 10 + decDigit c) a = a * 10 ^ l.length + decValue l := by
  induction l generalizing a with
  | nil => simp [decValue]
  | cons c t ih =>
    simp only [List.foldl_cons, List.length_cons, decValue]
    rw [ih, ih]
    ring

theorem decValue_toDigitsCore (fuel : Nat) :
    ∀ (n : Nat) (ds : List Char), n < fuel →
    decValue (Nat.toDigitsCore 10 fuel n ds) = n * 10 ^ ds.length + decValue ds := by
  induction fuel with
  | zero => intro n ds h; exact absurd h (Nat.not_lt_zero n)
  | succ f ih =>
    intro n ds h
    simp only [Nat.toDigitsCore]
    by_cases hdiv : n / 10 = 0
    · rw [if_pos hdiv]
      have hn : n < 10 := by omega
      have hmod : n % 10 = n := Nat.mod_eq_of_lt hn
      simp only [decValue, List.foldl_cons]
      rw [decValue_foldl, decDigit_digitChar _ (Nat.mod_lt n (by norm_num)), hmod]
      simp only [decValue]
      ring
    · rw [if_neg hdiv]
      have hlt : n / 10 < f := by
        have h1 : 0 < n := by omega
        have := Nat.div_lt_self h1 (by norm_num : 1 < 10)
        omega
      rw [ih (n / 10) (Nat.digitChar (n % 10) :: ds) hlt]
      simp only [List.length_cons, decValue, List.foldl_cons]
      rw [decValue_foldl, decDigit_digitChar _ (Nat.mod_lt n (by norm_num))]
      have hd : 10 * (n / 10) + n % 10 = n := Nat.div_add_mod n 10
      conv_rhs => rw [← hd]
      simp only [decValue]
      ring

theorem decValue_repr (n : Nat) : decValue (Nat.repr n).data = n := by
  have h : (Nat.repr n).data = Nat.toDigitsCore 10 (n + 1) n [] := rfl
  rw [h, decValue_toDigitsCore (n + 1) n [] (Nat.lt_succ_self n)]
  simp [decValue]

theorem nat_repr_injective : Function.Injective Nat.repr := by
  intro m n h
  have h2 := congrArg (fun s => decValue s.data) h
  simpa [decValue_repr] using h2

theorem runNextIds_counter (n k : Nat) : (runNextIds n k).1 = n + k := by
  induction k with
  | zero => rfl
  | succ k ih =>
    simp only [runNextIds, nextIdCall, ih]
    omega

theorem runNextIds_ids (n k : Nat) :
    (runNextIds n k).2 = (List.range k).map (fun i => Nat.repr (n + i + 1)) := by
  induction k with
  | zero => rfl
  | succ k ih =>
    simp [runNextIds, nextIdCall, ih, List.range_succ, runNextIds_counter]

/-- C8: over a client's whole lifetime, any `k` successive `nextId` calls
from any starting counter hand out the decimal strings of the successive
counter values; they are strictly increasing in decimal value and contain
no duplicate, so no two requests on one connection — sessions all draw
from the same client counter — share a correlation id. -/
theorem c8_nextId_unique (n k : Nat) :
    (runNextIds n k).2 = (List.range k).map (fun i => Nat.repr (n + i + 1))
  ∧ List.Pairwise (fun a b => decValue a.data < decValue b.data) (runNextIds n k).2
  ∧ ((runNextIds n k).2).Nodup := by
  have hpair : List.Pairwise (fun a b => decValue a.data < decValue b.data) (runNextIds n k).2 := by
    rw [runNextIds_ids]
    refine List.Pairwise.map _ (fun a b hab => ?_) (List.pairwise_lt_range k)
    simp only [decValue_repr]
    omega
  refine ⟨runNextIds_ids n k, hpair, ?_⟩
  exact hpair.imp (fun {a b} hlt heq => by simp [heq] at hlt)

/-- C2, counterexample: `describe` (and likewise `out-subscribe`) is
written to the transport even when its op name is absent from the
capability set, so the claim as stated fails for these two operations. -/
theorem c2_counterexample :
    noCaps "describe" = false
  ∧ (describeOp noCaps "1" "s" true).writes =
      [{ op := "describe", id := some "1", session := some "s",
         fields := [("verbose", "true")] }]
  ∧ (describeOp noCaps "1" "s" true).writes ≠ [] := by
  decide

/-- C2, amended: for every session operation other than `describe` and
`out-subscribe` (which are written unconditionally), an op name absent
from the capability set means nothing is written and the call resolves
with `undefined` — except `interrupt`, which rejects with the explicit
not-supported error. -/
theorem c2_capability_gating_amended (sup : String → Bool)
    (id sessId iid ns sym code q file fname fpath inp key : String)
    (opt ctx : Option String) (extra : List (String × String)) (regexps : List String)
    (verbose : Bool)
    (h1 : sup "ls-sessions" = false) (h2 : sup "stacktrace" = false)
    (h3 : sup "complete" = false) (h4 : sup "info" = false)
    (h5 : sup "classpath" = false) (h6 : sup "test-var-query" = false)
    (h7 : sup "retest" = false) (h8 : sup "ns-load-all" = false)
    (h9 : sup "ns-list" = false) (h10 : sup "ns-path" = false)
    (h11 : sup "refresh" = false) (h12 : sup "refresh-all" = false)
    (h13 : sup "format-code" = false) (h14 : sup "interrupt" = false)
    (h15 : sup "stdin" = false) (h16 : sup "eval" = false)
    (h17 : sup "load-file" = false) (h18 : sup "clone" = false)
    (h19 : sup "init-debugger" = false) (h20 : sup "debug-input" = false)
    (h21 : sup "debug-instrumented-defs" = false)
    (h22 : sup "clojuredocs-refresh-cache" = false)
    (h23 : sup "clojuredocs-lookup" = false) :
    gatedOk (listSessionsOp sup id sessId)
  ∧ gatedOk (stacktraceOp sup id sessId)
  ∧ gatedOk (completeOp sup id sessId ns sym ctx extra)
  ∧ gatedOk (infoOp sup id sessId ns sym)
  ∧ gatedOk (classpathOp sup id sessId)
  ∧ gatedOk (testVarQueryOp sup id sessId q)
  ∧ gatedOk (retestOp sup id sessId)
  ∧ gatedOk (loadAllOp sup id sessId)
  ∧ gatedOk (listNamespacesOp sup id sessId regexps)
  ∧ gatedOk (nsPathOp sup id sessId ns)
  ∧ gatedOk (refreshOp sup id sessId)
  ∧ gatedOk (refreshAllOp sup id sessId)
  ∧ gatedOk (formatCodeOp sup id sessId code opt)
  ∧ gatedRejects (interruptOp sup id sessId iid)
  ∧ gatedOk (stdinOp sup sessId inp)
  ∧ gatedOk (evalOp sup none false none id sessId code)
  ∧ gatedOk (loadFileOp sup id sessId file fname fpath)
  ∧ gatedOk (cloneOp sup id sessId)
  ∧ gatedOk (initDebuggerOp sup id sessId)
  ∧ gatedOk (sendDebugInputOp sup sessId inp id key)
  ∧ gatedOk (listDebugInstrumentedDefsOp sup id sessId)
  ∧ gatedOk (clojureDocsRefreshCacheOp sup id sessId)
  ∧ gatedOk (clojureDocsLookupOp sup id sessId ns sym)
  ∧ (describeOp sup id sessId verbose).writes ≠ []
  ∧ (outSubscribeOp sup id sessId verbose).writes ≠ [] := by
  simp [gatedOk, gatedRejects, listSessionsOp, stacktraceOp, completeOp, infoOp, classpathOp,
        testVarQueryOp, retestOp, loadAllOp, listNamespacesOp, nsPathOp, refreshOp, refreshAllOp,
        refreshGenOp, formatCodeOp, interruptOp, stdinOp, evalOp, createEvalOperationMessage,
        loadFileOp, cloneOp, initDebuggerOp, sendDebugInputOp, listDebugInstrumentedDefsOp,
        clojureDocsRefreshCacheOp, clojureDocsLookupOp, describeOp, outSubscribeOp,
        gatedResultOp, h1, h2, h3, h4, h5, h6, h7, h8, h9, h10, h11, h12, h13, h14, h15, h16,
        h17, h18, h19, h20, h21, h22, h23]

/-- Witness for C2 at a concrete empty capability set. -/
theorem c2_capability_gating_witness :
    gatedOk (listSessionsOp noCaps "1" "s")
  ∧ gatedOk (stacktraceOp noCaps "1" "s")
  ∧ gatedOk (completeOp noCaps "1" "s" "n" "y" none [])
  ∧ gatedOk (infoOp noCaps "1" "s" "n" "y")
  ∧ gatedOk (classpathOp noCaps "1" "s")
  ∧ gatedOk (testVarQueryOp noCaps "1" "s" "q")
  ∧ gatedOk (retestOp noCaps "1" "s")
  ∧ gatedOk (loadAllOp noCaps "1" "s")
  ∧ gatedOk (listNamespacesOp noCaps "1" "s" [])
  ∧ gatedOk (nsPathOp noCaps "1" "s" "n")
  ∧ gatedOk (refreshOp noCaps "1" "s")
  ∧ gatedOk (refreshAllOp noCaps "1" "s")
  ∧ gatedOk (formatCodeOp noCaps "1" "s" "c" none)
  ∧ gatedRejects (interruptOp noCaps "1" "s" "9")
  ∧ gatedOk (stdinOp noCaps "s" "i")
  ∧ gatedOk (evalOp noCaps none false none "1" "s" "c")
  ∧ gatedOk (loadFileOp noCaps "1" "s" "f" "g" "p")
  ∧ gatedOk (cloneOp noCaps "1" "s")
  ∧ gatedOk (initDebuggerOp noCaps "1" "s")
  ∧ gatedOk (sendDebugInputOp noCaps "s" "i" "1" "k")
  ∧ gatedOk (listDebugInstrumentedDefsOp noCaps "1" "s")
  ∧ gatedOk (clojureDocsRefreshCacheOp noCaps "1" "s")
  ∧ gatedOk (clojureDocsLookupOp noCaps "1" "s" "n" "y")
  ∧ (describeOp noCaps "1" "s" true).writes ≠ []
  ∧ (outSubscribeOp noCaps "1" "s" true).writes ≠ [] :=
  c2_capability_gating_amended noCaps "1" "s" "9" "n" "y" "c" "q" "f" "g" "p" "i" "k"
    none none [] [] true rfl rfl rfl rfl rfl rfl rfl rfl rfl rfl rfl rfl rfl rfl rfl rfl
    rfl rfl rfl rfl rfl rfl rfl

/-- C9, counterexample: `interrupt` is capability-gated, yet before the
describe result is stored it rejects instead of resolving with
`undefined`. -/
theorem c9_counterexample :
    supports none "interrupt" = false
  ∧ (interruptOp (supports none) "1" "s" "9").outcome ≠ Outcome.resolvedU
  ∧ (interruptOp (supports none) "1" "s" "9").outcome =
      Outcome.rejectedMsg "interrupt not supported by the nREPL server" := by
  decide

/-- C9, amended: `supports` is total and returns `false` for every op
name while no describe result is stored, so every capability-gated
operation invoked before bootstrap completes writes nothing and resolves
with `undefined` — except `interrupt`, which rejects with the explicit
not-supported error. -/
theorem c9_supports_before_bootstrap :
    (∀ op, supports none op = false)
  ∧ (∀ id sessId, gatedOk (listSessionsOp (supports none) id sessId))
  ∧ (∀ id sessId, gatedOk (stacktraceOp (supports none) id sessId))
  ∧ (∀ id sessId ns sym, gatedOk (completeOp (supports none) id sessId ns sym none []))
  ∧ (∀ id sessId ns sym, gatedOk (infoOp (supports none) id sessId ns sym))
  ∧ (∀ id sessId, gatedOk (classpathOp (supports none) id sessId))
  ∧ (∀ id sessId q, gatedOk (testVarQueryOp (supports none) id sessId q))
  ∧ (∀ id sessId, gatedOk (retestOp (supports none) id sessId))
  ∧ (∀ id sessId, gatedOk (loadAllOp (supports none) id sessId))
  ∧ (∀ id sessId rs, gatedOk (listNamespacesOp (supports none) id sessId rs))
  ∧ (∀ id sessId ns, gatedOk (nsPathOp (supports none) id sessId ns))
  ∧ (∀ id sessId, gatedOk (refreshOp (supports none) id sessId))
  ∧ (∀ id sessId, gatedOk (refreshAllOp (supports none) id sessId))
  ∧ (∀ id sessId code, gatedOk (formatCodeOp (supports none) id sessId code none))
  ∧ (∀ sessId inp, gatedOk (stdinOp (supports none) sessId inp))
  ∧ (∀ id sessId code, gatedOk (evalOp (supports none) none false none id sessId code))
  ∧ (∀ id sessId file fname fpath, gatedOk (loadFileOp (supports none) id sessId file fname fpath))
  ∧ (∀ id sessId, gatedOk (cloneOp (supports none) id sessId))
  ∧ (∀ id sessId, gatedOk (initDebuggerOp (supports none) id sessId))
  ∧ (∀ sessId inp did dkey, gatedOk (sendDebugInputOp (supports none) sessId inp did dkey))
  ∧ (∀ id sessId, gatedOk (listDebugInstrumentedDefsOp (supports none) id sessId))
  ∧ (∀ id sessId, gatedOk (clojureDocsRefreshCacheOp (supports none) id sessId))
  ∧ (∀ id sessId ns sym, gatedOk (clojureDocsLookupOp (supports none) id sessId ns sym))
  ∧ (∀ id sessId iid, gatedRejects (interruptOp (supports none) id sessId iid)) := by
  refine ⟨fun op => rfl, ?_, ?_, ?_, ?_, ?_, ?_, ?_, ?_, ?_, ?_, ?_, ?_, ?_, ?_, ?_, ?_,
    ?_, ?_, ?_, ?_, ?_, ?_, ?_⟩ <;>
    (intros
     simp [gatedOk, gatedRejects, supports, gatedResultOp, listSessionsOp, stacktraceOp,
       completeOp, infoOp, classpathOp, testVarQueryOp, retestOp, loadAllOp, listNamespacesOp,
       nsPathOp, refreshOp, refreshAllOp, refreshGenOp, formatCodeOp, stdinOp, evalOp,
       createEvalOperationMessage, loadFileOp, cloneOp, initDebuggerOp, sendDebugInputOp,
       listDebugInstrumentedDefsOp, clojureDocsRefreshCacheOp, clojureDocsLookupOp, interruptOp])

/-! Bootstrap lemmas: the dispatch chain never unsets the stored describe
result or the constructed session, and never touches `resolved`. -/

theorem createStepCore_resolved (s : BootState) (d : Msg) :
    (createStepCore s d).resolved = s.resolved := by
  unfold createStepCore
  repeat' split
  all_goals rfl

theorem createStepCore_mono_session (s : BootState) (d : Msg) (h : s.sessionCreated = true) :
    (createStepCore s d).sessionCreated = true := by
  unfold createStepCore
  repeat' split
  all_goals first
  | rfl
  | simp_all

theorem createStepCore_mono_describe (s : BootState) (d : Msg) (h : s.describe.isSome = true) :
    (createStepCore s d).describe.isSome = true := by
  unfold createStepCore
  repeat' split
  all_goals first
  | rfl
  | simp_all

theorem createStep_resolved_iff (s : BootState) (d : Msg)
    (hs : s.resolved = (s.sessionCreated && s.describe.isSome)) :
    (createStep s d).resolved
      = ((createStep s d).sessionCreated && (createStep s d).describe.isSome) := by
  unfold createStep
  cases hcb : ((createStepCore s d).sessionCreated && (createStepCore s d).describe.isSome) with
  | true => simp [hcb]
  | false =>
    simp only [hcb, Bool.false_eq_true, if_false]
    rw [createStepCore_resolved]
    cases hsr : s.resolved with
    | false => rfl
    | true =>
      rw [hsr] at hs
      have hboth := (Bool.and_eq_true _ _).mp hs.symm
      rw [createStepCore_mono_session s d hboth.1, createStepCore_mono_describe s d hboth.2] at hcb
      exact absurd hcb (by simp)

theorem foldl_createStep_inv (msgs : List Msg) :
    ∀ s : BootState, s.resolved = (s.sessionCreated && s.describe.isSome) →
    (msgs.foldl createStep s).resolved
      = ((msgs.foldl createStep s).sessionCreated && (msgs.foldl createStep s).describe.isSome) := by
  induction msgs with
  | nil => intro s hs; simpa using hs
  | cons d t ih => intro s hs; exact ih (createStep s d) (createStep_resolved_iff s d hs)

/-- C7: over any interleaving of decoded bootstrap messages, the creation
promise is resolved exactly when both the first session object exists
(clone response processed) and the describe result is stored — the
condition is re-evaluated by `createStep` after every message, so the
equality holds at every prefix of the stream. -/
theorem c7_bootstrap_resolution (msgs : List Msg) :
    (runCreate msgs).resolved
      = ((runCreate msgs).sessionCreated && (runCreate msgs).describe.isSome) := by
  unfold runCreate
  exact foldl_createStep_inv msgs initBoot rfl

/-- A truthy id passed to `addRunningID` is in the result. -/
theorem mem_addRunningID (ids : List String) (i : String) (hi : i.isEmpty = false) :
    i ∈ addRunningID ids (some i) := by
  unfold addRunningID
  by_cases h : i ∈ ids <;> simp [hi, h]

/-- C6, counterexample: a terminal message whose status contains `done`
alongside another tag (here `eval-error`) is still added to the
running-id set by the default handler, because the source compares the
status array to the string `done` with JavaScript `==` (comma-joined
coercion) rather than testing membership. -/
theorem c6_counterexample :
    hasStatus c6Msg.status "done" = true
  ∧ "7" ∉ c6Sess.runningIds
  ∧ "7" ∈ (defaultMessageHandler c6Sess c6Msg).1.runningIds := by
  decide

/-- C6, amended: the default handler updates the tracked REPL flavor when
the message carries a truthy one; it adds the message's (truthy) id to
the running-id set if and only if it was already there or the status
field is not present-and-loosely-equal to `done` (so a status of exactly
`[done]` is excluded but `[eval-error, done]` is added); and it forwards
`out`/`err` payloads only when a REPL flavor is known after the update. -/
theorem c6_default_handler_amended (s : SessState) (m : Msg) (i : String)
    (hid : m.id = some i) (hi : i.isEmpty = false) :
    ((defaultMessageHandler s m).1.replType
        = (if truthyS m.replType then m.replType else s.replType))
  ∧ ((i ∈ (defaultMessageHandler s m).1.runningIds)
        ↔ (i ∈ s.runningIds ∨ (m.status.isSome && statusLooseEq m.status "done") = false))
  ∧ ((defaultMessageHandler s m).2 ≠ []
        → truthyS (defaultMessageHandler s m).1.replType = true) := by
  unfold defaultMessageHandler
  by_cases hrt : truthyS m.replType = true <;>
    by_cases hst : (m.status.isSome && statusLooseEq m.status "done") = true <;>
      by_cases hfw : (truthyS m.out || truthyS m.err) = true <;>
        simp [hrt, hst, hfw, hid, hi, mem_addRunningID]
  all_goals exact fun h _ => h

/-- Witness for C6 at the concrete counterexample input. -/
theorem c6_default_handler_amended_witness :
    ((defaultMessageHandler c6Sess c6Msg).1.replType
        = (if truthyS c6Msg.replType then c6Msg.replType else c6Sess.replType))
  ∧ (("7" ∈ (defaultMessageHandler c6Sess c6Msg).1.runningIds)
        ↔ ("7" ∈ c6Sess.runningIds
            ∨ (c6Msg.status.isSome && statusLooseEq c6Msg.status "done") = false))
  ∧ ((defaultMessageHandler c6Sess c6Msg).2 ≠ []
        → truthyS (defaultMessageHandler c6Sess c6Msg).1.replType = true) :=
  c6_default_handler_amended c6Sess c6Msg "7" rfl rfl

/-! The stored `_msgValue` survives every stage of `onMessage` after the
value assignment. -/

theorem evalOut_msgValue (e : EvalState) (s : String) : ((evalOut e s).1).msgValue = e.msgValue := by
  unfold evalOut; split <;> rfl

theorem evalErr_msgValue (e : EvalState) (s : String) : ((evalErr e s).1).msgValue = e.msgValue := by
  unfold evalErr; split <;> rfl

theorem doResolve_msgValue (e : EvalState) (v : Option String) :
    ((doResolve e v).1).msgValue = e.msgValue := by
  unfold doResolve; split <;> rfl

theorem doReject_msgValue (e : EvalState) (v : Option String) :
    ((doReject e v).1).msgValue = e.msgValue := by
  unfold doReject; split <;> rfl

theorem evalInterrupt_msgValue (cfg : Cfg) (w : World) :
    ((evalInterrupt cfg w).1).eval.msgValue = w.eval.msgValue := by
  unfold evalInterrupt
  split
  · simp [doReject_msgValue]
  · rfl

theorem procNeedInput_msgValue (cfg : Cfg) (o : Oracle) (w : World) :
    ((procNeedInput cfg o w).1).eval.msgValue = w.eval.msgValue := by
  unfold procNeedInput
  repeat' split
  all_goals simp [evalErr_msgValue, evalOut_msgValue, evalInterrupt_msgValue]

theorem procTerminal_msgValue (cfg : Cfg) (o : Oracle) (w : World) :
    ((procTerminal cfg o w).1).eval.msgValue = w.eval.msgValue := by
  unfold procTerminal
  cases hpr : o.prettyRes <;>
    simp only [hpr] <;>
    split_ifs <;>
      simp [doReject_msgValue, doResolve_msgValue, evalErr_msgValue]

theorem fieldPprint_msgValue (e : EvalState) (m : Msg) :
    (fieldPprint e m).msgValue = e.msgValue := by
  unfold fieldPprint; split <;> rfl

theorem fieldCauses_throws (e : EvalState) (m : Msg) :
    (fieldCauses e m).2 = throwsOnCauses m := by
  unfold fieldCauses throwsOnCauses
  repeat' split
  all_goals simp_all

theorem procFields_throws (e : EvalState) (m : Msg) :
    (procFields e m).2 = throwsOnCauses m := by
  simp only [procFields]
  split <;> simp_all [fieldCauses_throws]

theorem onMessage_throws (cfg : Cfg) (o : Oracle) (w : World) (m : Msg) :
    (onMessage cfg o w m).2.2 = throwsOnCauses m := by
  have hpf := procFields_throws (startEval w.eval m) m
  simp only [onMessage]
  cases hc : throwsOnCauses m with
  | true =>
    rw [hc] at hpf
    simp [hpf]
  | false =>
    rw [hc] at hpf
    simp only [hpf, Bool.false_eq_true, if_false]
    split_ifs <;> rfl

theorem handleEvalMsg_throws (cfg : Cfg) (o : Oracle) (w : World) (m : Msg) :
    (handleEvalMsg cfg o w m).2.2 = throwsOnCauses m := by
  unfold handleEvalMsg
  exact onMessage_throws cfg o _ m

theorem procFields_msgValue_value (e : EvalState) (m : Msg) (v : String)
    (hv : m.value = some v) (hne : v.isEmpty = false) (hnc : throwsOnCauses m = false) :
    ((procFields e m).1.1).msgValue = some v := by
  unfold procFields fieldValue
  simp [fieldCauses_throws, hnc, fieldPprint_msgValue, hv, jsOrOpt, truthyS, hne]

/-- C4, counterexample: a message carrying both a non-empty `value` and
a non-empty `debug-value` stores the `value`, not the `debug-value`
(`msg.value || msg[debug-value]` returns the first truthy operand); and
when the same fields arrive on an `eval-error` message with an empty
causes array, the TypeError thrown at `msg.causes[0].class` aborts
`onMessage` before the value assignment, so nothing is stored at all. -/
theorem c4_counterexample :
    c4Msg.value = some "1"
  ∧ c4Msg.debugValue = some "2"
  ∧ ((onMessage cfgAll oracle0 world7 c4Msg).1.1).eval.msgValue = some "1"
  ∧ ((onMessage cfgAll oracle0 world7 c4Msg).1.1).eval.msgValue ≠ some "2"
  ∧ c4CrashMsg.value = some "1"
  ∧ ((onMessage cfgAll oracle0 world7 c4CrashMsg).1.1).eval.msgValue = none
  ∧ (onMessage cfgAll oracle0 world7 c4CrashMsg).2.2 = true := by
  decide

/-- C4, amended: when a message carries a defined non-empty `value` and
does not hit the throwing eval-error/empty-causes branch, the stored
evaluation result is that `value`, regardless of any `debug-value`;
`debug-value` is used only when `value` is undefined or falsy. -/
theorem c4_value_precedence (cfg : Cfg) (o : Oracle) (w : World) (m : Msg) (v : String)
    (hv : m.value = some v) (hne : v.isEmpty = false) (hnc : throwsOnCauses m = false) :
    ((onMessage cfg o w m).1.1).eval.msgValue = some v := by
  unfold onMessage
  simp only [procFields_throws, hnc, Bool.false_eq_true, if_false]
  repeat' split
  all_goals
    simp [procTerminal_msgValue, procNeedInput_msgValue,
      procFields_msgValue_value _ m v hv hne hnc]

/-- Witness for C4 at a concrete input. -/
theorem c4_value_precedence_witness :
    c4Msg.value = some "1"
  ∧ ("1").isEmpty = false
  ∧ throwsOnCauses c4Msg = false
  ∧ ((onMessage cfgAll oracle0 world7 c4Msg).1.1).eval.msgValue = some "1" :=
  ⟨rfl, rfl, rfl, c4_value_precedence cfgAll oracle0 world7 c4Msg "1" rfl rfl rfl⟩

theorem evalOut_core (e : EvalState) (s : String) :
    ((evalOut e s).1.handlersSet = e.handlersSet) ∧ ((evalOut e s).1.finished = e.finished)
  ∧ ((evalOut e s).1.resolveCount = e.resolveCount) ∧ ((evalOut e s).1.rejectCount = e.rejectCount)
  ∧ ((evalOut e s).1.interrupted = e.interrupted) ∧ ((evalOut e s).1.running = e.running)
  ∧ ((evalOut e s).1.inInstances = e.inInstances) ∧ ((evalOut e s).1.id = e.id) := by
  unfold evalOut; split <;> simp

theorem evalErr_core (e : EvalState) (s : String) :
    ((evalErr e s).1.handlersSet = e.handlersSet) ∧ ((evalErr e s).1.finished = e.finished)
  ∧ ((evalErr e s).1.resolveCount = e.resolveCount) ∧ ((evalErr e s).1.rejectCount = e.rejectCount)
  ∧ ((evalErr e s).1.interrupted = e.interrupted) ∧ ((evalErr e s).1.running = e.running)
  ∧ ((evalErr e s).1.inInstances = e.inInstances) ∧ ((evalErr e s).1.id = e.id) := by
  unfold evalErr; split <;> simp

theorem fieldOut_core (e : EvalState) (m : Msg) :
    ((fieldOut e m).1.handlersSet = e.handlersSet) ∧ ((fieldOut e m).1.finished = e.finished)
  ∧ ((fieldOut e m).1.resolveCount = e.resolveCount) ∧ ((fieldOut e m).1.rejectCount = e.rejectCount)
  ∧ ((fieldOut e m).1.interrupted = e.interrupted) ∧ ((fieldOut e m).1.running = e.running)
  ∧ ((fieldOut e m).1.inInstances = e.inInstances) ∧ ((fieldOut e m).1.id = e.id) := by
  unfold fieldOut; split <;> simp [evalOut_core]

theorem fieldErr_core (e : EvalState) (m : Msg) :
    ((fieldErr e m).1.handlersSet = e.handlersSet) ∧ ((fieldErr e m).1.finished = e.finished)
  ∧ ((fieldErr e m).1.resolveCount = e.resolveCount) ∧ ((fieldErr e m).1.rejectCount = e.rejectCount)
  ∧ ((fieldErr e m).1.interrupted = e.interrupted) ∧ ((fieldErr e m).1.running = e.running)
  ∧ ((fieldErr e m).1.inInstances = e.inInstances) ∧ ((fieldErr e m).1.id = e.id) := by
  unfold fieldErr; split <;> simp [evalErr_core]

theorem fieldNs_core (e : EvalState) (m : Msg) :
    ((fieldNs e m).handlersSet = e.handlersSet) ∧ ((fieldNs e m).finished = e.finished)
  ∧ ((fieldNs e m).resolveCount = e.resolveCount) ∧ ((fieldNs e m).rejectCount = e.rejectCount)
  ∧ ((fieldNs e m).interrupted = e.interrupted) ∧ ((fieldNs e m).running = e.running)
  ∧ ((fieldNs e m).inInstances = e.inInstances) ∧ ((fieldNs e m).id = e.id) := by
  unfold fieldNs; split <;> simp

theorem fieldEx_core (e : EvalState) (m : Msg) :
    ((fieldEx e m).handlersSet = e.handlersSet) ∧ ((fieldEx e m).finished = e.finished)
  ∧ ((fieldEx e m).resolveCount = e.resolveCount) ∧ ((fieldEx e m).rejectCount = e.rejectCount)
  ∧ ((fieldEx e m).interrupted = e.interrupted) ∧ ((fieldEx e m).running = e.running)
  ∧ ((fieldEx e m).inInstances = e.inInstances) ∧ ((fieldEx e m).id = e.id) := by
  unfold fieldEx; split <;> simp

theorem fieldCauses_core (e : EvalState) (m : Msg) :
    ((fieldCauses e m).1.1.handlersSet = e.handlersSet)
  ∧ ((fieldCauses e m).1.1.finished = e.finished)
  ∧ ((fieldCauses e m).1.1.resolveCount = e.resolveCount)
  ∧ ((fieldCauses e m).1.1.rejectCount = e.rejectCount)
  ∧ ((fieldCauses e m).1.1.interrupted = e.interrupted)
  ∧ ((fieldCauses e m).1.1.running = e.running)
  ∧ ((fieldCauses e m).1.1.inInstances = e.inInstances)
  ∧ ((fieldCauses e m).1.1.id = e.id) := by
  unfold fieldCauses
  repeat' split
  all_goals simp [evalErr_core]

theorem fieldValue_core (e : EvalState) (m : Msg) :
    ((fieldValue e m).handlersSet = e.handlersSet) ∧ ((fieldValue e m).finished = e.finished)
  ∧ ((fieldValue e m).resolveCount = e.resolveCount) ∧ ((fieldValue e m).rejectCount = e.rejectCount)
  ∧ ((fieldValue e m).interrupted = e.interrupted) ∧ ((fieldValue e m).running = e.running)
  ∧ ((fieldValue e m).inInstances = e.inInstances) ∧ ((fieldValue e m).id = e.id) := by
  unfold fieldValue; split <;> simp

theorem fieldPprint_core (e : EvalState) (m : Msg) :
    ((fieldPprint e m).handlersSet = e.handlersSet) ∧ ((fieldPprint e m).finished = e.finished)
  ∧ ((fieldPprint e m).resolveCount = e.resolveCount)
  ∧ ((fieldPprint e m).rejectCount = e.rejectCount)
  ∧ ((fieldPprint e m).interrupted = e.interrupted) ∧ ((fieldPprint e m).running = e.running)
  ∧ ((fieldPprint e m).inInstances = e.inInstances) ∧ ((fieldPprint e m).id = e.id) := by
  unfold fieldPprint; split <;> simp

/-- `procFields` never settles the promise nor leaves the live-instance
set: all bookkeeping fields survive it. -/
theorem procFields_core (e : EvalState) (m : Msg) :
    ((procFields e m).1.1.handlersSet = e.handlersSet)
  ∧ ((procFields e m).1.1.finished = e.finished)
  ∧ ((procFields e m).1.1.resolveCount = e.resolveCount)
  ∧ ((procFields e m).1.1.rejectCount = e.rejectCount)
  ∧ ((procFields e m).1.1.interrupted = e.interrupted)
  ∧ ((procFields e m).1.1.running = e.running)
  ∧ ((procFields e m).1.1.inInstances = e.inInstances)
  ∧ ((procFields e m).1.1.id = e.id) := by
  simp only [procFields]
  split <;>
    simp [fieldOut_core, fieldErr_core, fieldNs_core, fieldEx_core, fieldCauses_core,
          fieldValue_core, fieldPprint_core]

theorem msgValueStr_inInstances (e : EvalState) (b : Bool) :
    ({ e with inInstances := b } : EvalState).msgValueStr = e.msgValueStr := rfl

/-- C5, counterexample: an exception-carrying terminal message whose
`eval-error` status comes with an empty causes array makes the source
throw at `msg.causes[0].class` before the terminal branch, so no
stacktrace request is written and no rejection happens — even though the
exception is set, the status contains `done`, and `stacktrace` is
supported. -/
theorem c5_counterexample :
    cfgAll.sup "stacktrace" = true
  ∧ hasStatus c5CrashMsg.status "done" = true
  ∧ truthyS c5CrashMsg.ex = true
  ∧ (onMessage cfgAll oracle0 c5World c5CrashMsg).2.2 = true
  ∧ (onMessage cfgAll oracle0 c5World c5CrashMsg).1.2 = []
  ∧ (onMessage cfgAll oracle0 c5World c5CrashMsg).1.1.eval.rejectCount = 0 := by
  decide

/-- C5, amended: when a terminal message that does not hit the throwing
eval-error/empty-causes branch arrives for an evaluation whose exception
is set (after this message's fields are absorbed), whose value is not
the debug-quit sentinel, and whose session supports `stacktrace`, the
client writes exactly one `stacktrace` request and then rejects the
evaluation with the exception text — for every oracle, i.e. whether the
stacktrace fetch succeeds or fails. -/
theorem c5_exception_rejects (cfg : Cfg) (o : Oracle) (w : World) (m : Msg)
    (hdone : hasStatus m.status "done" = true)
    (hnc : throwsOnCauses m = false)
    (hni : (m.status.isSome && statusLooseEq m.status "need-input") = false)
    (hex : truthyS ((procFields (startEval w.eval m) m).1.1).exception = true)
    (hdq : (((procFields (startEval w.eval m) m).1.1).msgValueStr == DEBUG_QUIT_VALUE) = false)
    (hst : cfg.sup "stacktrace" = true)
    (hh : w.eval.handlersSet = true)
    (hf : w.eval.finished = false) :
    (onMessage cfg o w m).2 = (true, false)
  ∧ (onMessage cfg o w m).1.2
      = (procFields (startEval w.eval m) m).1.2
        ++ [Ev.sendEv { op := "stacktrace", id := some (Nat.repr (w.sess.nextId + 1)),
                        session := some cfg.sessionId },
            Ev.rejectEv ((procFields (startEval w.eval m) m).1.1).exception]
  ∧ (onMessage cfg o w m).1.1.eval.rejectCount = w.eval.rejectCount + 1
  ∧ (onMessage cfg o w m).1.1.eval.finished = true := by
  have hterm : isTerminalMsg m = true := by simp [isTerminalMsg, hdone]
  have hcore := procFields_core (startEval w.eval m) m
  have hh2 : ((procFields (startEval w.eval m) m).1.1).handlersSet = true := by
    rw [hcore.1]; exact hh
  have hf2 : ((procFields (startEval w.eval m) m).1.1).finished = false := by
    rw [hcore.2.1]; exact hf
  have hrc : ((procFields (startEval w.eval m) m).1.1).rejectCount = w.eval.rejectCount := by
    rw [hcore.2.2.2.1]; rfl
  unfold onMessage procTerminal
  simp only [procFields_throws, hnc, Bool.false_eq_true, if_false]
  simp only [hni, hterm, if_true, msgValueStr_inInstances]
  simp only [stacktraceOp, gatedResultOp, opEvents, hst, if_true]
  by_cases hok : o.stacktraceOk = true <;>
    simp [hok, hex, hdq, hst, doReject, hh2, hf2, hrc, bne]

/-- Witness for C5 at a concrete eval-error terminal message. -/
theorem c5_exception_rejects_witness :
    (onMessage cfgAll oracle0 c5World c5Msg).2 = (true, false)
  ∧ (onMessage cfgAll oracle0 c5World c5Msg).1.2
      = (procFields (startEval c5World.eval c5Msg) c5Msg).1.2
        ++ [Ev.sendEv { op := "stacktrace", id := some (Nat.repr (c5World.sess.nextId + 1)),
                        session := some cfgAll.sessionId },
            Ev.rejectEv ((procFields (startEval c5World.eval c5Msg) c5Msg).1.1).exception]
  ∧ (onMessage cfgAll oracle0 c5World c5Msg).1.1.eval.rejectCount = c5World.eval.rejectCount + 1
  ∧ (onMessage cfgAll oracle0 c5World c5Msg).1.1.eval.finished = true :=
  c5_exception_rejects cfgAll oracle0 c5World c5Msg (by decide) (by decide) (by decide)
    (by decide) (by decide) rfl rfl rfl

theorem doReject_core (e : EvalState) (v : Option String) :
    ((doReject e v).1.handlersSet = e.handlersSet) ∧ ((doReject e v).1.interrupted = e.interrupted)
  ∧ ((doReject e v).1.inInstances = e.inInstances) ∧ ((doReject e v).1.id = e.id)
  ∧ ((doReject e v).1.finished = true) ∧ ((doReject e v).1.running = false)
  ∧ ((doReject e v).1.resolveCount = e.resolveCount) := by
  unfold doReject; split <;> simp

/-- A second interrupt is a no-op: the guard fails once `interrupted` is set. -/
theorem evalInterrupt_noop (cfg : Cfg) (w : World) (h : w.eval.interrupted = true) :
    evalInterrupt cfg w = (w, []) := by
  unfold evalInterrupt
  simp [h]

theorem evalInterrupt_interrupted (cfg : Cfg) (w : World)
    (hrun : w.eval.running = true) (hint : w.eval.interrupted = false) :
    (evalInterrupt cfg w).1.eval.interrupted = true := by
  unfold evalInterrupt
  simp [hrun, hint, doReject_core]

theorem evalInterrupt_handlers (cfg : Cfg) (w : World)
    (hrun : w.eval.running = true) (hint : w.eval.interrupted = false) :
    (evalInterrupt cfg w).1.sess.messageHandlers
      = deleteHandler ((sessionInterruptW cfg w.sess w.eval.id).1).messageHandlers w.eval.id := by
  unfold evalInterrupt
  simp [hrun, hint]

theorem lookupHandler_deleteHandler (hs : List (String × HKind)) (i : String) :
    lookupHandler (deleteHandler hs i) i = none := by
  unfold lookupHandler deleteHandler
  simp [List.find?_eq_none, List.mem_filter, decide_eq_true_eq]

theorem response_no_handler_eval (cfg : Cfg) (o : Oracle) (w : World) (m : Msg) (i : String)
    (hid : m.id = some i)
    (hlk : lookupHandler w.sess.messageHandlers i = none) :
    (response cfg o w m).1.eval = w.eval := by
  unfold response
  rw [hid]
  simp [hlk]

/-- C3: interrupting a running, not-yet-interrupted evaluation twice has
the effect of exactly one interruption — the second call returns the
state unchanged with no events; the first call removes the evaluation's
pending handler from the session table, so a late terminal message for
its id is dispatched to the default handler and leaves the evaluation
(and its already-rejected outcome) untouched; and with installed
executors the first call rejects exactly once. -/
theorem c3_interrupt_idempotent (cfg : Cfg) (o : Oracle) (w : World) (m : Msg)
    (hrun : w.eval.running = true) (hint : w.eval.interrupted = false) :
    (evalInterrupt cfg (evalInterrupt cfg w).1 = ((evalInterrupt cfg w).1, []))
  ∧ (∀ p ∈ (evalInterrupt cfg w).1.sess.messageHandlers, p.1 ≠ w.eval.id)
  ∧ (m.id = some w.eval.id →
      (response cfg o (evalInterrupt cfg w).1 m).1.eval = (evalInterrupt cfg w).1.eval)
  ∧ (w.eval.handlersSet = true → w.eval.finished = false →
      (evalInterrupt cfg w).1.eval.rejectCount = w.eval.rejectCount + 1
      ∧ (evalInterrupt cfg w).1.eval.finished = true) := by
  refine ⟨evalInterrupt_noop cfg _ (evalInterrupt_interrupted cfg w hrun hint), ?_, ?_, ?_⟩
  · rw [evalInterrupt_handlers cfg w hrun hint]
    intro p hp
    have := List.of_mem_filter hp
    simpa [decide_eq_true_eq] using this
  · intro hm
    apply response_no_handler_eval cfg o _ m w.eval.id hm
    rw [evalInterrupt_handlers cfg w hrun hint]
    exact lookupHandler_deleteHandler _ _
  · intro hh hf
    unfold evalInterrupt
    simp [hrun, hint, doReject, hh, hf]

/-- Witness for C3 at a concrete running evaluation and a late done
message. -/
theorem c3_interrupt_idempotent_witness :
    (evalInterrupt cfgAll (evalInterrupt cfgAll c5World).1 = ((evalInterrupt cfgAll c5World).1, []))
  ∧ (∀ p ∈ (evalInterrupt cfgAll c5World).1.sess.messageHandlers, p.1 ≠ c5World.eval.id)
  ∧ (c3Msg.id = some c5World.eval.id →
      (response cfgAll oracle0 (evalInterrupt cfgAll c5World).1 c3Msg).1.eval
        = (evalInterrupt cfgAll c5World).1.eval)
  ∧ (c5World.eval.handlersSet = true → c5World.eval.finished = false →
      (evalInterrupt cfgAll c5World).1.eval.rejectCount = c5World.eval.rejectCount + 1
      ∧ (evalInterrupt cfgAll c5World).1.eval.finished = true) :=
  c3_interrupt_idempotent cfgAll oracle0 c5World c3Msg rfl rfl

theorem doResolve_pack (e : EvalState) (v : Option String) :
    ((doResolve e v).1.finished = true) ∧ ((doResolve e v).1.handlersSet = e.handlersSet)
  ∧ ((doResolve e v).1.inInstances = e.inInstances)
  ∧ ((doResolve e v).1.rejectCount = e.rejectCount)
  ∧ ((doResolve e v).1.resolveCount
      = if e.handlersSet && !e.finished then e.resolveCount + 1 else e.resolveCount) := by
  unfold doResolve; split <;> simp_all

theorem doReject_pack (e : EvalState) (v : Option String) :
    ((doReject e v).1.finished = true) ∧ ((doReject e v).1.handlersSet = e.handlersSet)
  ∧ ((doReject e v).1.inInstances = e.inInstances)
  ∧ ((doReject e v).1.resolveCount = e.resolveCount)
  ∧ ((doReject e v).1.rejectCount
      = if e.handlersSet && !e.finished then e.rejectCount + 1 else e.rejectCount) := by
  unfold doReject; split <;> simp_all

theorem onceInv_congr {a b : EvalState} (hf : b.finished = a.finished)
    (hr : b.resolveCount = a.resolveCount) (hj : b.rejectCount = a.rejectCount)
    (h : onceInv a) : onceInv b := by
  unfold onceInv at h ⊢
  rw [hf, hr, hj]
  exact h

theorem evalInterrupt_K (cfg : Cfg) (w : World)
    (hh : w.eval.handlersSet = true) (hK : onceInv w.eval) :
    onceInv (evalInterrupt cfg w).1.eval ∧ (evalInterrupt cfg w).1.eval.handlersSet = true := by
  unfold evalInterrupt
  split
  · unfold onceInv at hK ⊢
    by_cases hf : w.eval.finished = true <;>
      simp [doReject_pack, hh, hf] at hK ⊢ <;> omega
  · exact ⟨hK, hh⟩

theorem procNeedInput_K (cfg : Cfg) (o : Oracle) (w : World)
    (hh : w.eval.handlersSet = true) (hK : onceInv w.eval) :
    onceInv (procNeedInput cfg o w).1.eval ∧ (procNeedInput cfg o w).1.eval.handlersSet = true := by
  unfold procNeedInput
  by_cases hstd : w.eval.hasStdin = true
  · cases hsi : o.stdinRes with
    | ok line => simpa [hstd, hsi] using ⟨hK, hh⟩
    | error r =>
      have hc := evalErr_core w.eval ("Failed to retrieve input: " ++ r)
      simp only [hstd, hsi, if_true]
      exact ⟨onceInv_congr hc.2.1 hc.2.2.1 hc.2.2.2.1 hK, by rw [hc.1]; exact hh⟩
  · cases hpo : o.promptRes with
    | error u => simpa [hstd, hpo] using ⟨hK, hh⟩
    | ok oin =>
      cases oin with
      | some input => simpa [hstd, hpo] using ⟨hK, hh⟩
      | none =>
        have hc := evalOut_core w.eval "Sending interrupt."
        have h2 := evalInterrupt_K cfg ⟨w.sess, (evalOut w.eval "Sending interrupt.").1⟩
          (by rw [hc.1]; exact hh)
          (onceInv_congr hc.2.1 hc.2.2.1 hc.2.2.2.1 hK)
        simp only [hstd, hpo, if_true]
        exact h2

theorem procTerminal_K (cfg : Cfg) (o : Oracle) (w : World)
    (hh : w.eval.handlersSet = true) (hK : onceInv w.eval) :
    onceInv (procTerminal cfg o w).1.eval
  ∧ (procTerminal cfg o w).1.eval.handlersSet = true := by
  unfold procTerminal
  unfold onceInv at hK ⊢
  cases hpr : o.prettyRes <;> simp only [hpr] <;> split_ifs <;>
    by_cases hf : w.eval.finished = true <;>
      simp [doReject_pack, doResolve_pack, evalErr_core, hh, hf] at hK ⊢ <;>
        omega

theorem procTerminal_finished (cfg : Cfg) (o : Oracle) (w : World) :
    (procTerminal cfg o w).1.eval.finished = true
  ∧ (procTerminal cfg o w).1.eval.inInstances = false := by
  unfold procTerminal
  cases hpr : o.prettyRes <;> simp only [hpr] <;> split_ifs <;>
    simp [doReject_pack, doResolve_pack, evalErr_core]

theorem onMessage_K (cfg : Cfg) (o : Oracle) (w : World) (m : Msg)
    (hh : w.eval.handlersSet = true) (hK : onceInv w.eval) :
    onceInv (onMessage cfg o w m).1.1.eval
  ∧ (onMessage cfg o w m).1.1.eval.handlersSet = true := by
  have hcore := procFields_core (startEval w.eval m) m
  have hh1 : (procFields (startEval w.eval m) m).1.1.handlersSet = true := by
    rw [hcore.1]; exact hh
  have hK1 : onceInv (procFields (startEval w.eval m) m).1.1 :=
    onceInv_congr (hcore.2.1.trans rfl) (hcore.2.2.1.trans rfl) (hcore.2.2.2.1.trans rfl) hK
  simp only [onMessage]
  by_cases hcr : (procFields (startEval w.eval m) m).2 = true
  · rw [if_pos hcr]
    exact ⟨hK1, hh1⟩
  · rw [if_neg hcr]
    split_ifs with hni ht ht2
    · have h2 := procNeedInput_K cfg o ⟨w.sess, (procFields (startEval w.eval m) m).1.1⟩ hh1 hK1
      exact procTerminal_K cfg o _ h2.2 h2.1
    · exact procTerminal_K cfg o ⟨w.sess, (procFields (startEval w.eval m) m).1.1⟩ hh1 hK1
    · exact procNeedInput_K cfg o ⟨w.sess, (procFields (startEval w.eval m) m).1.1⟩ hh1 hK1
    · exact ⟨hK1, hh1⟩

theorem handleEvalMsg_K (cfg : Cfg) (o : Oracle) (w : World) (m : Msg) (hK : onceInv w.eval) :
    onceInv (handleEvalMsg cfg o w m).1.1.eval
  ∧ (handleEvalMsg cfg o w m).1.1.eval.handlersSet = true := by
  unfold handleEvalMsg
  exact onMessage_K cfg o ⟨w.sess, { w.eval with handlersSet := true }⟩ m rfl
    (onceInv_congr rfl rfl rfl hK)

theorem handleEvalMsg_terminal (cfg : Cfg) (o : Oracle) (w : World) (m : Msg)
    (ht : isTerminalMsg m = true) (hnc : throwsOnCauses m = false) :
    (handleEvalMsg cfg o w m).1.1.eval.finished = true
  ∧ (handleEvalMsg cfg o w m).1.1.eval.inInstances = false := by
  unfold handleEvalMsg onMessage
  simp only [procFields_throws, hnc, Bool.false_eq_true, if_false, ht, if_true]
  split_ifs <;> exact procTerminal_finished cfg o _

theorem runEvalMsgsCore_nil (cfg : Cfg) (w : World) : runEvalMsgsCore cfg w [] = w := rfl

theorem runEvalMsgsCore_cons (cfg : Cfg) (w : World) (p : Msg × Oracle)
    (t : List (Msg × Oracle)) :
    runEvalMsgsCore cfg w (p :: t) = runEvalMsgsCore cfg ((handleEvalMsg cfg p.2 w p.1).1.1) t :=
  rfl

theorem runEvalMsgsCore_append (cfg : Cfg) (w : World) (l1 l2 : List (Msg × Oracle)) :
    runEvalMsgsCore cfg w (l1 ++ l2) = runEvalMsgsCore cfg (runEvalMsgsCore cfg w l1) l2 := by
  unfold runEvalMsgsCore
  rw [List.foldl_append]

theorem runEvalMsgsCore_K (cfg : Cfg) (ms : List (Msg × Oracle)) :
    ∀ w : World, onceInv w.eval → onceInv (runEvalMsgsCore cfg w ms).eval := by
  induction ms with
  | nil => intro w h; exact h
  | cons p t ih =>
    intro w h
    rw [runEvalMsgsCore_cons]
    exact ih _ (handleEvalMsg_K cfg p.2 w p.1 h).1

/-- When no message in the sequence hits the throwing branch, the run
never aborts and coincides with the plain fold of the handler. -/
theorem runEvalMsgs_eq_core (cfg : Cfg) (ms : List (Msg × Oracle)) :
    ∀ w : World, (∀ p ∈ ms, throwsOnCauses p.1 = false) →
    runEvalMsgs cfg w ms = (runEvalMsgsCore cfg w ms, false) := by
  induction ms with
  | nil => intro w h; rfl
  | cons p t ih =>
    intro w h
    have hp : throwsOnCauses p.1 = false := h p (List.mem_cons_self p t)
    have hstep : runEvalMsgs cfg w (p :: t)
        = runEvalMsgs cfg ((handleEvalMsg cfg p.2 w p.1).1.1) t := by
      unfold runEvalMsgs
      simp [List.foldl_cons, handleEvalMsg_throws, hp]
    rw [hstep, ih _ (fun q hq => h q (List.mem_cons_of_mem p hq)), runEvalMsgsCore_cons]

/-- C1, counterexample: a single terminal message whose status contains
`done` but whose `eval-error` status carries an empty causes array makes
the handler throw before the terminal branch — the evaluation is settled
zero times (not once) and is still in the live-instance set. -/
theorem c1_counterexample :
    hasStatus c1CrashMsg.status "done" = true
  ∧ (runEvalMsgs cfgAll world7 [(c1CrashMsg, oracle0)]).2 = true
  ∧ (runEvalMsgs cfgAll world7 [(c1CrashMsg, oracle0)]).1.eval.resolveCount
      + (runEvalMsgs cfgAll world7 [(c1CrashMsg, oracle0)]).1.eval.rejectCount = 0
  ∧ (runEvalMsgs cfgAll world7 [(c1CrashMsg, oracle0)]).1.eval.finished = false
  ∧ (runEvalMsgs cfgAll world7 [(c1CrashMsg, oracle0)]).1.eval.inInstances = true := by
  decide

/-- C1, amended: for a fresh evaluation and any sequence of messages
delivered to its handler, none of which hits the throwing
eval-error/empty-causes branch, culminating in a message whose status
contains `done`, the run never aborts and the promise is settled exactly
once — the total of calls forwarded to `_resolve`/`__reject` over the
whole run is one, the `finished` latch is set — and the evaluation is no
longer in the live-instance set. -/
theorem c1_exactly_once (cfg : Cfg) (w : World) (ms : List (Msg × Oracle))
    (mlast : Msg) (olast : Oracle)
    (hf : w.eval.finished = false) (h0 : w.eval.resolveCount = 0) (h1 : w.eval.rejectCount = 0)
    (hdone : hasStatus mlast.status "done" = true)
    (hnothrow : ∀ p ∈ ms ++ [(mlast, olast)], throwsOnCauses p.1 = false) :
    (runEvalMsgs cfg w (ms ++ [(mlast, olast)])).2 = false
  ∧ (runEvalMsgs cfg w (ms ++ [(mlast, olast)])).1.eval.resolveCount
      + (runEvalMsgs cfg w (ms ++ [(mlast, olast)])).1.eval.rejectCount = 1
  ∧ (runEvalMsgs cfg w (ms ++ [(mlast, olast)])).1.eval.finished = true
  ∧ (runEvalMsgs cfg w (ms ++ [(mlast, olast)])).1.eval.inInstances = false := by
  have hK0 : onceInv w.eval := by
    unfold onceInv
    rw [hf, h0, h1]
    simp
  have hKmid := runEvalMsgsCore_K cfg ms w hK0
  have hterm : isTerminalMsg mlast = true := by simp [isTerminalMsg, hdone]
  have hnclast : throwsOnCauses mlast = false :=
    hnothrow (mlast, olast) (List.mem_append_right ms (List.mem_singleton_self _))
  have hlast := handleEvalMsg_K cfg olast (runEvalMsgsCore cfg w ms) mlast hKmid
  have hfin := handleEvalMsg_terminal cfg olast (runEvalMsgsCore cfg w ms) mlast hterm hnclast
  rw [runEvalMsgs_eq_core cfg (ms ++ [(mlast, olast)]) w hnothrow]
  rw [runEvalMsgsCore_append, runEvalMsgsCore_cons, runEvalMsgsCore_nil]
  refine ⟨rfl, ?_, hfin.1, hfin.2⟩
  have h2 := hlast.1
  unfold onceInv at h2
  exact h2.1.mp hfin.1

/-- Witness for C1: a single done message settles a fresh evaluation
exactly once. -/
theorem c1_exactly_once_witness :
    (runEvalMsgs cfgAll world7 ([] ++ [(c3Msg, oracle0)])).2 = false
  ∧ (runEvalMsgs cfgAll world7 ([] ++ [(c3Msg, oracle0)])).1.eval.resolveCount
      + (runEvalMsgs cfgAll world7 ([] ++ [(c3Msg, oracle0)])).1.eval.rejectCount = 1
  ∧ (runEvalMsgs cfgAll world7 ([] ++ [(c3Msg, oracle0)])).1.eval.finished = true
  ∧ (runEvalMsgs cfgAll world7 ([] ++ [(c3Msg, oracle0)])).1.eval.inInstances = false :=
  c1_exactly_once cfgAll world7 [] c3Msg oracle0 rfl rfl rfl (by decide) (by decide)

end NRepl
